import Mathlib

/-!
Verification of `scripts/product_hunt_list_to_md.py`: a shallow embedding of
the script's pure logic (keyword derivation, timestamp conversion, image-URL
resolution, fetch pagination, webhook statistics, the mock-data fallback),
with theorems settling the spec's claims about it.

Network effects are modelled by explicit parameters: the outcome of an HTTP
GET is passed in as a value (`FetchResult`), and the paged GraphQL responses
as a list of pages. Python exceptions are modelled by `Option`/`Except`
results: a function that can raise an uncaught exception returns `none` on
the raising inputs.
-/

namespace ProductHunt

/-! ## Keyword derivation (`Product.generate_keywords`, lines 74-82)

The Python body is
`words = set((self.name + ", " + self.tagline).replace("&", ",").replace("|", ",").replace("-", ",").split(","))`
`return ", ".join([word.strip() for word in words if word.strip()])`.
Every `replace` here rewrites one character to one character, so it is a map
over the characters; `split(",")` keeps empty chunks; `set` deduplicates the
raw (untrimmed) chunks, its iteration order unspecified — the model keeps
each chunk's first occurrence, which fixes one order with the same element
multiset; `strip` trims Python whitespace from both ends. -/

/-- The characters `str.strip()` removes: ASCII whitespace as Python
classifies it (space, tab, newline, carriage return, vertical tab, form
feed). Python also strips non-ASCII Unicode space characters; none of the
inputs in this development contain any. -/
def pyIsSpace (c : Char) : Bool :=
  c = ' ' || c = '\t' || c = '\n' || c = '\r' || c.toNat = 11 || c.toNat = 12

/-- `str.strip()` on a character list: drop `pyIsSpace` characters from both
ends. -/
def pyStripList (l : List Char) : List Char :=
  ((l.dropWhile pyIsSpace).reverse.dropWhile pyIsSpace).reverse

/-- `str.strip()`. -/
def pyStrip (s : String) : String :=
  String.mk (pyStripList s.data)

/-- `str.replace(old, new)` when `old` and `new` are single characters:
rewrite every occurrence. -/
def pyReplaceChar (old new : Char) (l : List Char) : List Char :=
  l.map fun c => if c = old then new else c

/-- `str.split(",")`: split at every comma, keeping empty chunks (so
`"".split(",") == [""]`). -/
def splitOnComma : List Char → List (List Char)
  | [] => [[]]
  | c :: rest =>
    match splitOnComma rest with
    | [] => [[]]
    | cur :: done => if c = ',' then [] :: cur :: done else (c :: cur) :: done

/-- `set(...)` over a list of strings, iterated in first-occurrence order.
Python's set iteration order is unspecified; every property proved below
about the result (membership, counts, failure of `Nodup`) is independent of
the order chosen. -/
def dedupKeepFirstAux : List String → List String → List String
  | [], _ => []
  | x :: xs, seen =>
    if x ∈ seen then dedupKeepFirstAux xs seen
    else x :: dedupKeepFirstAux xs (x :: seen)

def dedupKeepFirst (l : List String) : List String :=
  dedupKeepFirstAux l []

/-- The comma chunks of `(name + ", " + tagline)` after the three separator
normalizations `&`, `|`, `-` → `,`. -/
def keywordSegments (name tagline : String) : List String :=
  let combined := name ++ ", " ++ tagline
  let normalized :=
    pyReplaceChar '-' ',' (pyReplaceChar '|' ',' (pyReplaceChar '&' ',' combined.data))
  (splitOnComma normalized).map String.mk

/-- The token list whose `", ".join` is the keyword string: deduplicate the
raw chunks, strip each, drop the ones that strip to empty. -/
def keywordTokens (name tagline : String) : List String :=
  ((dedupKeepFirst (keywordSegments name tagline)).map pyStrip).filter fun w => w != ""

/-- `Product.generate_keywords` (lines 74-82). The `except` branch (return
the bare name) is unreachable for string inputs: the body raises no
exception. -/
def generate_keywords (name tagline : String) : String :=
  String.intercalate ", " (keywordTokens name tagline)

example : keywordTokens "a" "a" = ["a", "a"] := by decide
example : generate_keywords "a" "a" = "a, a" := by decide
example : keywordTokens "Venice" "Private & censorship-resistant AI"
    = ["Venice", "Private", "censorship", "resistant AI"] := by decide

/-! ## Timestamp conversion (`Product.convert_to_beijing_time`, lines 84-89)

`datetime.strptime(utc_time_str, '%Y-%m-%dT%H:%M:%SZ')` matches the string
against the regular expression CPython's `_strptime` builds for that format,
compiled with `re.IGNORECASE` (so the literals `T` and `Z` also match their
lowercase forms), anchored at the start and required to consume the whole
string. The field patterns are `%Y` = exactly four digits, `%m` =
`1[0-2]|0[1-9]|[1-9]`, `%d` = `3[01]|[12]\d|0[1-9]|[1-9]`, `%H` =
`2[0-3]|[0-1]\d|\d`, `%M` = `[0-5]\d|\d`, `%S` = `6[0-1]|[0-5]\d|\d`: a
two-digit alternative is preferred, with regex backtracking to the one-digit
alternative when the rest of the pattern fails. The matched groups are then
fed to the `datetime` constructor, which rejects year 0, a day beyond the
month's length, and seconds 60-61.

In this format every field is followed by a non-digit literal, so whenever
the constructor rejects a two-digit match, the one-digit backtrack leaves a
digit facing that literal and the whole match fails; folding the constructor
checks into the backtracking, as `parse_strptime` below does, therefore
yields `none` exactly on the strings where Python raises `ValueError`. -/

/-- The six fields `strptime` produces. -/
structure DT where
  year : Nat
  month : Nat
  day : Nat
  hour : Nat
  minute : Nat
  second : Nat
deriving DecidableEq, Repr

/-- The value of a decimal digit character. -/
def dval (c : Char) : Option Nat :=
  if '0' ≤ c ∧ c ≤ '9' then some (c.toNat - 48) else none

/-- `%Y`: exactly four digits. -/
def parse4Digits : List Char → Option (Nat × List Char)
  | a :: b :: c :: d :: rest => do
    let x ← dval a
    let y ← dval b
    let z ← dval c
    let w ← dval d
    pure (1000 * x + 100 * y + 10 * z + w, rest)
  | _ => none

/-- A literal separator of the format. -/
def expectChar (c : Char) : List Char → Option (List Char)
  | x :: rest => if x = c then some rest else none
  | _ => none

/-- The literal `T`, matched case-insensitively (`re.IGNORECASE`). -/
def expectT : List Char → Option (List Char)
  | x :: rest => if x = 'T' || x = 't' then some rest else none
  | _ => none

/-- The literal `Z`, matched case-insensitively (`re.IGNORECASE`). -/
def expectZ : List Char → Option (List Char)
  | x :: rest => if x = 'Z' || x = 'z' then some rest else none
  | _ => none

/-- A field whose regex prefers a two-digit match (`valid2` on the two digit
values) and backtracks to a one-digit match (`valid1`); `rest` parses the
remainder of the string. -/
def field2or1 (valid2 : Nat → Nat → Bool) (valid1 : Nat → Bool)
    (l : List Char) (rest : Nat → List Char → Option DT) : Option DT :=
  (match l with
   | a :: b :: l' =>
     match dval a, dval b with
     | some x, some y => if valid2 x y then rest (10 * x + y) l' else none
     | _, _ => none
   | _ => none)
  <|>
  (match l with
   | a :: l' =>
     match dval a with
     | some x => if valid1 x then rest x l' else none
     | _ => none
   | _ => none)

/-- Gregorian leap year, as `datetime` computes it. -/
def isLeapYear (y : Nat) : Bool :=
  y % 4 = 0 && (y % 100 ≠ 0 || y % 400 = 0)

/-- Days in a month, as the `datetime` constructor validates them. -/
def daysInMonth (y m : Nat) : Nat :=
  if m = 2 then (if isLeapYear y then 29 else 28)
  else if m = 4 || m = 6 || m = 9 || m = 11 then 30
  else 31

/-- The `datetime(year, month, day, hour, minute, second)` constructor's
validation of the matched groups: year at least `MINYEAR` (1), day within
the month, seconds below 60 (the regex lets 60-61 through; the constructor
rejects them). Month 1-12, hour at most 23 and minute at most 59 are already
guaranteed by the regex. -/
def ctorCheck (y mo d h mi s : Nat) : Option DT :=
  if 1 ≤ y ∧ 1 ≤ d ∧ d ≤ daysInMonth y mo ∧ s ≤ 59 then some ⟨y, mo, d, h, mi, s⟩
  else none

/-- `datetime.strptime(s, '%Y-%m-%dT%H:%M:%SZ')`: `some` of the six fields,
or `none` where Python raises `ValueError`. -/
def parse_strptime (s : String) : Option DT := do
  let (y, r1) ← parse4Digits s.data
  let r2 ← expectChar '-' r1
  field2or1 (fun x z => (x = 1 ∧ z ≤ 2) ∨ (x = 0 ∧ 1 ≤ z)) (fun x => 1 ≤ x) r2
    fun mo r3 => do
      let r4 ← expectChar '-' r3
      field2or1 (fun x z => (x = 3 ∧ z ≤ 1) ∨ x = 1 ∨ x = 2 ∨ (x = 0 ∧ 1 ≤ z))
          (fun x => 1 ≤ x) r4 fun d r5 => do
        let r6 ← expectT r5
        field2or1 (fun x z => (x = 2 ∧ z ≤ 3) ∨ x ≤ 1) (fun _ => true) r6
          fun h r7 => do
            let r8 ← expectChar ':' r7
            field2or1 (fun x _ => x ≤ 5) (fun _ => true) r8 fun mi r9 => do
              let r10 ← expectChar ':' r9
              field2or1 (fun x z => (x = 6 ∧ z ≤ 1) ∨ x ≤ 5) (fun _ => true) r10
                fun sec r11 => do
                  let r12 ← expectZ r11
                  match r12 with
                  | [] => ctorCheck y mo d h mi sec
                  | _ => none

/-- `astimezone(pytz.timezone('Asia/Shanghai'))`: add the UTC+8 offset, the
zone's fixed offset for every timestamp since 1991 (all dates this program
handles). Shifting past `datetime.max` (year 9999) raises `OverflowError`,
modelled as `none`. -/
def shiftToBeijing (t : DT) : Option DT :=
  if t.hour + 8 < 24 then some { t with hour := t.hour + 8 }
  else
    let h := t.hour + 8 - 24
    if t.day < daysInMonth t.year t.month then
      some { t with day := t.day + 1, hour := h }
    else if t.month < 12 then
      some { t with month := t.month + 1, day := 1, hour := h }
    else if t.year < 9999 then
      some { year := t.year + 1, month := 1, day := 1, hour := h,
             minute := t.minute, second := t.second }
    else none

/-- Two-digit zero padding, as `strftime`'s `%m`, `%d`, `%I`, `%M` print. -/
def pad2 (n : Nat) : String :=
  if n < 10 then "0" ++ toString n else toString n

/-- `strftime('%Y年%m月%d日 %p%I:%M (北京时间)')` in the C locale: `%p` is
`AM` below noon and `PM` from noon on, `%I` the zero-padded 12-hour figure
(12 for hour 0 and 12). -/
def formatBeijing (t : DT) : String :=
  toString t.year ++ "年" ++ pad2 t.month ++ "月" ++ pad2 t.day ++ "日 "
    ++ (if t.hour < 12 then "AM" else "PM")
    ++ pad2 (if t.hour % 12 = 0 then 12 else t.hour % 12)
    ++ ":" ++ pad2 t.minute ++ " (北京时间)"

/-- `Product.convert_to_beijing_time` (lines 84-89): parse, shift to UTC+8,
render. `none` where the Python raises (a `ValueError` from `strptime` or an
`OverflowError` from the shift); the method has no handler, so a `none` here
propagates to the caller. -/
def convert_to_beijing_time (s : String) : Option String :=
  (parse_strptime s).bind fun t => (shiftToBeijing t).map formatBeijing

example : parse_strptime "2025-03-07T16:01:00Z" = some ⟨2025, 3, 7, 16, 1, 0⟩ := by decide
example : parse_strptime "2025-3-07T16:01:00Z" = some ⟨2025, 3, 7, 16, 1, 0⟩ := by decide
example : parse_strptime "2025-03-07T16:01:00" = none := by decide
example : parse_strptime "2025-02-30T16:01:00Z" = none := by decide
example : parse_strptime "2025-03-07t16:01:00z" = some ⟨2025, 3, 7, 16, 1, 0⟩ := by decide
example : parse_strptime "2025-03-07T16:01:60Z" = none := by decide
example : convert_to_beijing_time "2025-03-07T16:01:00Z"
    = some "2025年03月08日 AM12:01 (北京时间)" := by decide

/-! ## Image URL resolution (`Product.get_image_url_from_media`, lines 31-53,
and `Product.fetch_og_image_url`, lines 55-72)

The network is modelled by a `FetchResult` parameter: what
`requests.get(self.url, timeout=10)` came back with (`Except.error` when the
call raised), the response's HTML abstracted to its status code and the two
meta tags the code looks for. -/

/-- One entry of the API's `media` list. `media[0].get('url', '')` reads the
`url` key with default `''`; `none` models an absent key. -/
structure MediaEntry where
  url : Option String := none
  type : Option String := none
  videoUrl : Option String := none
deriving DecidableEq, Repr

/-- A fetched product page, abstracted to what `fetch_og_image_url` reads:
the status code, the `content` of a `<meta property="og:image">` tag when
one exists, and the `content` of a `<meta name="twitter:image">` tag when
one exists. -/
structure MetaPage where
  statusCode : Nat
  ogImage : Option String := none
  twitterImage : Option String := none
deriving DecidableEq, Repr

/-- The outcome of `requests.get`: `.error` when the call raised. -/
abbrev FetchResult := Except String MetaPage

/-- `Product.fetch_og_image_url` (lines 55-72). On a 200 response with no
`og:image` tag, the code runs `soup.find("meta", name="twitter:image")`;
BeautifulSoup's `find` already names its first (positional) parameter
`name`, so that call raises
`TypeError: find() got multiple values for argument 'name'` before any
lookup happens, the method's `except` swallows it, and `""` is returned: the
`twitter:image` content is never read. Every other error (a raising `get`, a
non-200 status) is likewise swallowed to `""`. -/
def fetch_og_image_url (fetched : FetchResult) : String :=
  match fetched with
  | .error _ => ""
  | .ok page =>
    if page.statusCode = 200 then
      match page.ogImage with
      | some content => content
      | none => ""
    else ""

/-- `Product.get_image_url_from_media` (lines 31-53): the first media
entry's `url` when non-empty, else the fallback fetch's result, else `""`.
The wrapping `try` never fires in the model because `fetch_og_image_url`
swallows its own errors and the media access is total. -/
def get_image_url_from_media (media : List MediaEntry) (fetched : FetchResult) : String :=
  match media with
  | entry :: _ =>
    let image_url := entry.url.getD ""
    if image_url ≠ "" then image_url else fetch_og_image_url fetched
  | [] => fetch_og_image_url fetched

/-! ## Product construction (`Product.__init__`, lines 19-29) -/

/-- A raw API record, the keyword arguments of `Product(**post)`. -/
structure RawPost where
  id : String := ""
  name : String
  tagline : String
  description : String
  votesCount : Nat
  createdAt : String
  featuredAt : Option String
  website : String
  url : String
  media : List MediaEntry
deriving DecidableEq, Repr

/-- Python truthiness of the optional `featuredAt` string: `None` and `""`
are falsy. -/
def truthyOpt : Option String → Bool
  | none => false
  | some s => s != ""

structure Product where
  name : String
  tagline : String
  description : String
  votes_count : Nat
  created_at : String
  featured : String
  website : String
  url : String
  og_image_url : String
  keyword : String
deriving DecidableEq, Repr

/-- `Product.__init__` (lines 19-29). `oracle url` is what
`requests.get(url)` would come back with, consumed only when the media list
yields no image. The only unguarded step is `convert_to_beijing_time`, so
construction returns `none` exactly when that raises; every other field
degrades instead of failing. -/
def Product.init (oracle : String → FetchResult) (p : RawPost) : Option Product :=
  (convert_to_beijing_time p.createdAt).map fun created =>
    { name := p.name
      tagline := p.tagline
      description := p.description
      votes_count := p.votesCount
      created_at := created
      featured := if truthyOpt p.featuredAt then "是" else "否"
      website := p.website
      url := p.url
      og_image_url := get_image_url_from_media p.media (oracle p.url)
      keyword := generate_keywords p.name p.tagline }

/-! ## Mock data (`fetch_mock_data`, lines 201-254) -/

/-- The three hard-coded fallback records, verbatim from the script. -/
def mockRawPosts : List RawPost :=
  [{ id := "1"
     name := "Venice"
     tagline := "Private & censorship-resistant AI | Unlock unlimited intelligence"
     description := "Venice is a private, censorship-resistant AI platform powered by open-source models and decentralized infrastructure. The app combines the benefits of decentralized blockchain technology with the power of generative AI."
     votesCount := 566
     createdAt := "2025-03-07T16:01:00Z"
     featuredAt := some "2025-03-07T16:01:00Z"
     website := "https://www.producthunt.com/r/4D6Z6F7I3SXTGN"
     url := "https://www.producthunt.com/posts/venice-3"
     media := [{ url := some "https://ph-files.imgix.net/97baee49-6dda-47f5-8a47-91d2c56e1976.jpeg"
                 type := some "image", videoUrl := none }] },
   { id := "2"
     name := "Mistral OCR"
     tagline := "Introducing the world's most powerful document understanding API"
     description := "Introducing Mistral OCR—an advanced, lightweight optical character recognition model focused on speed, accuracy, and efficiency. Whether extracting text from images or digitizing documents, it delivers top-tier performance with ease."
     votesCount := 477
     createdAt := "2025-03-07T16:01:00Z"
     featuredAt := some "2025-03-07T16:01:00Z"
     website := "https://www.producthunt.com/r/SPXNTAWQSVRLGH"
     url := "https://www.producthunt.com/posts/mistral-ocr"
     media := [{ url := some "https://ph-files.imgix.net/4224517b-29e4-4944-98c9-2eee59374870.png"
                 type := some "image", videoUrl := none }] },
   { id := "3"
     name := "AI Code Reviewer"
     tagline := "Automated code review powered by AI"
     description := "An intelligent code review tool that uses AI to analyze your code, suggest improvements, and catch potential bugs before they reach production."
     votesCount := 324
     createdAt := "2025-03-07T14:30:00Z"
     featuredAt := none
     website := "https://example.com/ai-code-reviewer"
     url := "https://www.producthunt.com/posts/ai-code-reviewer"
     media := [] }]

/-- `fetch_mock_data` (lines 201-254): `[Product(**p) for p in mock_products]`.
A construction error inside the comprehension would propagate (`none`). -/
def fetch_mock_data (oracle : String → FetchResult) : Option (List Product) :=
  mockRawPosts.mapM (Product.init oracle)

/-! ## Fetch pagination (`fetch_product_hunt_data`, lines 177-199)

The paged GraphQL responses are modelled as a list of pages, consumed in
order: page `k` is what the `k`-th POST of the loop would find. Only the
fields the accumulation logic reads are kept: the nodes (abstracted to an
identifier and `votesCount`, all the sort reads) and `hasNextPage`. A raised
request exception aborts the whole fetch and is the caller's concern (claim
C5); the claims about pagination concern the non-raising runs modelled
here. -/

/-- A raw post as the pagination and sorting logic sees it: `pid` stands for
the record's identity (its position in arrival order), `votesCount` is the
sort key. -/
structure Post where
  pid : Nat
  votesCount : Nat
deriving DecidableEq, Repr

/-- One page of `data.posts`: its `nodes` and `pageInfo.hasNextPage`. -/
structure Page where
  nodes : List Post
  hasNextPage : Bool
deriving DecidableEq, Repr

/-- The accumulation loop
`while has_next_page and len(all_posts) < 30: ... all_posts.extend(posts)`:
`acc` is `all_posts`, `hasNext` the `has_next_page` flag (initially true),
and the page list what the successive requests return. When the loop still
wants a page but the modelled response sequence has none left, accumulation
ends with what it has. -/
def collectPosts : List Page → List Post → Bool → List Post
  | _, acc, false => acc
  | [], acc, true => acc
  | pg :: rest, acc, true =>
    if acc.length < 30 then collectPosts rest (acc ++ pg.nodes) pg.hasNextPage
    else acc

/-- All records the loop accumulates. -/
def fetchRaw (pages : List Page) : List Post :=
  collectPosts pages [] true

/-- Stable insertion of `x` into a list sorted by descending `key`: `x` goes
before the first element whose key does not exceed it. -/
def insertDescBy (key : α → Nat) (x : α) : List α → List α
  | [] => [x]
  | y :: ys => if key y ≤ key x then x :: y :: ys else y :: insertDescBy key x ys

/-- `sorted(l, key=key, reverse=True)`: a stable descending sort (Python's
sort is stable, and `reverse=True` keeps equal-key elements in their
original order). -/
def sortDescBy (key : α → Nat) : List α → List α
  | [] => []
  | x :: xs => insertDescBy key x (sortDescBy key xs)

/-- Whether a list is sorted by descending `key`. -/
def sortedDescBy (key : α → Nat) : List α → Bool
  | [] => true
  | [_] => true
  | x :: y :: rest => decide (key y ≤ key x) && sortedDescBy key (y :: rest)

/-- `fetch_product_hunt_data` (lines 177-199) up to the final `Product`
conversion: `sorted(all_posts, key=lambda x: x['votesCount'], reverse=True)[:30]`
over the accumulated records. (The comprehension then builds a `Product`
from each of the 30 selected records; that conversion is `Product.init`
above and preserves the count and order.) -/
def fetch_product_hunt_posts (pages : List Page) : List Post :=
  (sortDescBy (fun p => p.votesCount) (fetchRaw pages)).take 30

/-! ## Webhook payload (`send_to_webhook`, lines 256-311)

The JSON document the function builds and POSTs, with the Chinese field
names rendered as record fields. The POST itself and its try/except are
outside the model; the claims are about the document's construction. -/

/-- One entry of the payload's product list. -/
structure ProductItem where
  rank : Nat
  name : String
  tagline : String
  description : String
  og_image_url : String
  votes_count : Nat
  created_at : String
  featured : String
  website : String
  url : String
  keyword : String
  media_type : String
deriving DecidableEq, Repr

/-- The payload: 日期, 数据来源, 产品总数, 总票数, 平均票数, 最高票数,
最低票数, 产品列表. -/
structure WebhookData where
  date : String
  source : String
  product_count : Nat
  total_votes : Nat
  avg_votes : Nat
  max_votes : Nat
  min_votes : Nat
  items : List ProductItem
deriving DecidableEq, Repr

/-- One `product_info` dict (lines 268-281), with 1-based rank. -/
def productItem (rank : Nat) (p : Product) : ProductItem :=
  { rank := rank
    name := p.name
    tagline := p.tagline
    description := p.description
    og_image_url := p.og_image_url
    votes_count := p.votes_count
    created_at := p.created_at
    featured := p.featured
    website := p.website
    url := p.url
    keyword := p.keyword
    media_type := if p.og_image_url != "" then "图片" else "无图片" }

/-- The `data` dict of `send_to_webhook` (lines 266-297):
`products_data` over `products[:10]` with rank `i + 1`;
`total_votes = sum(product.votes_count for product in products[:10])`;
`avg_votes = total_votes // len(products[:10]) if products else 0`;
最高票数 `products[0].votes_count if products else 0`;
最低票数 `products[min(9, len(products)-1)].votes_count if products else 0`.
Each guarded index is modelled by the same guard, so the construction is
total exactly as the Python raises nothing here. -/
def build_webhook_data (date_today : String) (products : List Product) : WebhookData :=
  let top := products.take 10
  let items := top.enum.map fun ip => productItem (ip.1 + 1) ip.2
  let total := (top.map fun p => p.votes_count).sum
  { date := date_today
    source := "Product Hunt API"
    product_count := items.length
    total_votes := total
    avg_votes := match products with
      | [] => 0
      | _ :: _ => total / top.length
    max_votes := match products with
      | [] => 0
      | p :: _ => p.votes_count
    min_votes := match products with
      | [] => 0
      | p :: ps => ((p :: ps).getD (min 9 ps.length) p).votes_count
    items := items }

/-! ## Orchestration (`main`, lines 313-348)

`main` wraps only the fetch in try/except; on any exception it calls
`fetch_mock_data()` (whose own construction errors would propagate) and
carries on to `send_to_webhook`. `fetchOutcome` is what
`fetch_product_hunt_data()` did: `.ok` its products, `.error` a raised
exception's message. -/

/-- The product list `main` goes on to publish: `none` would model an
uncaught exception escaping `main`. -/
def main_products (fetchOutcome : Except String (List Product))
    (oracle : String → FetchResult) : Option (List Product) :=
  match fetchOutcome with
  | .ok ps => some ps
  | .error _ => fetch_mock_data oracle

/-- `main` through to the webhook document it submits. -/
def main_run (fetchOutcome : Except String (List Product))
    (oracle : String → FetchResult) (date_today : String) : Option WebhookData :=
  (main_products fetchOutcome oracle).map (build_webhook_data date_today)

/-! ## Concrete instances used by the theorems below -/

/-- Modelled from the spec's words for comparison with the code's actual
parser: "parse a strict UTC timestamp (`YYYY-MM-DDThh:mm:ssZ`)" read
strictly — four digits, `-`, two digits, `-`, two digits, `T`, two digits,
`:`, two digits, `:`, two digits, `Z`, nothing else. -/
def strictFormatOK (s : String) : Bool :=
  match s.data with
  | [y1, y2, y3, y4, '-', m1, m2, '-', d1, d2, 'T',
     h1, h2, ':', n1, n2, ':', s1, s2, 'Z'] =>
    y1.isDigit && y2.isDigit && y3.isDigit && y4.isDigit
      && m1.isDigit && m2.isDigit && d1.isDigit && d2.isDigit
      && h1.isDigit && h2.isDigit && n1.isDigit && n2.isDigit
      && s1.isDigit && s2.isDigit
  | _ => false

/-- A default `Product` used only as the out-of-range fallback of `List.getD`
in statements; the relevant indices are always in range. -/
def dummyProduct : Product :=
  { name := "", tagline := "", description := "", votes_count := 0, created_at := "",
    featured := "", website := "", url := "", og_image_url := "", keyword := "" }

/-- A product with the given vote count (other fields empty). -/
def mkVotesProduct (v : Nat) : Product :=
  { dummyProduct with votes_count := v }

/-- Ten products with votes 100, 90, ..., 10: the spec's statistics
example. -/
def tenProducts : List Product :=
  (List.range 10).map fun i => mkVotesProduct (100 - 10 * i)

/-- 45 records in arrival order with ascending votes 1..45: vote order is
the reverse of page order. -/
def ascendingPosts : List Post :=
  (List.range 45).map fun i => ⟨i, i + 1⟩

/-- Those 45 records paged 25 + 20, the second page the last. -/
def ascendingPages : List Page :=
  [⟨ascendingPosts.take 25, true⟩, ⟨ascendingPosts.drop 25, false⟩]

/-- 45 records in arrival order with descending votes 45..1, as the API's
`order: VOTES` delivers them. -/
def descendingPosts45 : List Post :=
  (List.range 45).map fun i => ⟨i, 45 - i⟩

/-! ## Helper lemmas -/

theorem dropWhile_head?_false {α : Type} (p : α → Bool) (l : List α) (a : α)
    (h : (l.dropWhile p).head? = some a) : p a = false := by
  induction l with
  | nil => simp [List.dropWhile] at h
  | cons x xs ih =>
    rw [List.dropWhile_cons] at h
    by_cases hp : p x = true
    · exact ih (by simpa [hp] using h)
    · rw [if_neg hp] at h
      obtain rfl : x = a := by simpa using h
      simpa using hp

theorem dropWhile_eq_self_of_head? {α : Type} (p : α → Bool) (l : List α)
    (h : ∀ a, l.head? = some a → p a = false) : l.dropWhile p = l := by
  cases l with
  | nil => rfl
  | cons x xs => simp [List.dropWhile_cons, h x rfl]

theorem dropWhile_dropWhile {α : Type} (p : α → Bool) (l : List α) :
    (l.dropWhile p).dropWhile p = l.dropWhile p :=
  dropWhile_eq_self_of_head? p _ fun a ha => dropWhile_head?_false p l a ha

theorem getLast?_dropWhile {α : Type} (p : α → Bool) (l : List α)
    (h : l.dropWhile p ≠ []) : (l.dropWhile p).getLast? = l.getLast? := by
  induction l with
  | nil => exact absurd rfl h
  | cons x xs ih =>
    rw [List.dropWhile_cons] at h ⊢
    by_cases hp : p x = true
    · rw [if_pos hp] at h ⊢
      rw [ih h]
      cases xs with
      | nil => simp [List.dropWhile] at h
      | cons y ys => simp
    · rw [if_neg hp]

theorem pyStripList_idem (l : List Char) :
    pyStripList (pyStripList l) = pyStripList l := by
  have h1 : ((pyStripList l).dropWhile pyIsSpace) = pyStripList l := by
    apply dropWhile_eq_self_of_head?
    intro a ha
    unfold pyStripList at ha
    rw [List.head?_reverse] at ha
    have hne : (l.dropWhile pyIsSpace).reverse.dropWhile pyIsSpace ≠ [] := by
      intro hcon
      rw [hcon] at ha
      simp at ha
    rw [getLast?_dropWhile _ _ hne, List.getLast?_reverse] at ha
    exact dropWhile_head?_false pyIsSpace l a ha
  unfold pyStripList
  unfold pyStripList at h1
  rw [h1, List.reverse_reverse, dropWhile_dropWhile]

theorem pyStrip_idem (s : String) : pyStrip (pyStrip s) = pyStrip s := by
  unfold pyStrip
  exact congrArg String.mk (pyStripList_idem s.data)

theorem dedupKeepFirstAux_nodup (l : List String) :
    ∀ seen, (dedupKeepFirstAux l seen).Nodup ∧
      ∀ x ∈ dedupKeepFirstAux l seen, x ∉ seen := by
  induction l with
  | nil => intro seen; simp [dedupKeepFirstAux]
  | cons x xs ih =>
    intro seen
    by_cases hx : x ∈ seen
    · simpa [dedupKeepFirstAux, hx] using ih seen
    · simp only [dedupKeepFirstAux, if_neg hx]
      obtain ⟨h1, h2⟩ := ih (x :: seen)
      refine ⟨List.Nodup.cons (fun hmem => (h2 x hmem) (List.mem_cons_self x seen)) h1, ?_⟩
      intro y hy
      rcases List.mem_cons.mp hy with rfl | hy'
      · exact hx
      · exact fun hcon => (h2 y hy') (List.mem_cons_of_mem _ hcon)

theorem dedupKeepFirst_nodup (l : List String) : (dedupKeepFirst l).Nodup :=
  (dedupKeepFirstAux_nodup l []).1

theorem take_min_length {α : Type} (l : List α) (n : Nat) :
    l.take (min n l.length) = l.take n := by
  rcases Nat.le_total n l.length with h | h
  · rw [Nat.min_eq_left h]
  · rw [Nat.min_eq_right h, List.take_length, List.take_of_length_le h]

theorem getD_of_lt {α : Type} (l : List α) (i : Nat) (a b : α) (h : i < l.length) :
    l.getD i a = l.getD i b := by
  induction l generalizing i with
  | nil => simp at h
  | cons x xs ih =>
    cases i with
    | zero => rfl
    | succ n => simpa using ih n (by simpa using h)

theorem sortedDescBy_eq_self {α : Type} (key : α → Nat) (l : List α)
    (h : sortedDescBy key l = true) : sortDescBy key l = l := by
  induction l with
  | nil => rfl
  | cons x xs ih =>
    cases xs with
    | nil => rfl
    | cons y ys =>
      simp only [sortedDescBy, Bool.and_eq_true, decide_eq_true_eq] at h
      obtain ⟨hxy, hrest⟩ := h
      show insertDescBy key x (sortDescBy key (y :: ys)) = x :: y :: ys
      rw [ih hrest]
      simp [insertDescBy, hxy]

theorem sortedDescBy_take {α : Type} (key : α → Nat) (n : Nat) (l : List α)
    (h : sortedDescBy key l = true) : sortedDescBy key (l.take n) = true := by
  induction l generalizing n with
  | nil => cases n <;> simp [sortedDescBy]
  | cons x xs ih =>
    cases n with
    | zero => rfl
    | succ m =>
      cases xs with
      | nil => cases m <;> simp [sortedDescBy]
      | cons y ys =>
        simp only [sortedDescBy, Bool.and_eq_true, decide_eq_true_eq] at h
        obtain ⟨hxy, hrest⟩ := h
        cases m with
        | zero => simp [sortedDescBy]
        | succ k =>
          have hy := ih (k + 1) hrest
          rw [List.take_succ_cons] at hy ⊢
          rw [List.take_succ_cons]
          simpa [sortedDescBy, hxy] using hy

theorem collectPosts_false (ps : List Page) (acc : List Post) :
    collectPosts ps acc false = acc := by
  cases ps <;> rfl

theorem collectPosts_cons_true (p : Page) (ps : List Page) (acc : List Post) :
    collectPosts (p :: ps) acc true =
      if acc.length < 30 then collectPosts ps (acc ++ p.nodes) p.hasNextPage
      else acc := rfl

theorem collectPosts_append_of_ge (ps : List Page) :
    ∀ (qs : List Page) (acc : List Post) (b : Bool),
      30 ≤ (collectPosts ps acc b).length →
      collectPosts (ps ++ qs) acc b = collectPosts ps acc b := by
  induction ps with
  | nil =>
    intro qs acc b h
    cases b with
    | false => simp [collectPosts_false]
    | true =>
      have hacc : 30 ≤ acc.length := h
      cases qs with
      | nil => rfl
      | cons q rest =>
        show collectPosts (q :: rest) acc true = acc
        rw [collectPosts_cons_true, if_neg (by omega)]
  | cons p ps ih =>
    intro qs acc b h
    cases b with
    | false => simp [collectPosts_false]
    | true =>
      by_cases hlt : acc.length < 30
      · rw [collectPosts_cons_true, if_pos hlt] at h
        rw [show (p :: ps) ++ qs = p :: (ps ++ qs) from rfl,
            collectPosts_cons_true, if_pos hlt, collectPosts_cons_true, if_pos hlt]
        exact ih qs _ _ h
      · rw [show (p :: ps) ++ qs = p :: (ps ++ qs) from rfl,
            collectPosts_cons_true, if_neg hlt, collectPosts_cons_true, if_neg hlt]

theorem collectPosts_stop_last (ps : List Page) (p : Page) (hp : p.hasNextPage = false) :
    ∀ (qs : List Page) (acc : List Post) (b : Bool),
      collectPosts (ps ++ p :: qs) acc b = collectPosts (ps ++ [p]) acc b := by
  induction ps with
  | nil =>
    intro qs acc b
    cases b with
    | false => simp [collectPosts_false]
    | true =>
      show collectPosts (p :: qs) acc true = collectPosts (p :: []) acc true
      rw [collectPosts_cons_true, collectPosts_cons_true, hp]
      by_cases hlt : acc.length < 30
      · rw [if_pos hlt, if_pos hlt, collectPosts_false, collectPosts_false]
      · rw [if_neg hlt, if_neg hlt]
  | cons r rs ih =>
    intro qs acc b
    cases b with
    | false => simp [collectPosts_false]
    | true =>
      rw [show (r :: rs) ++ p :: qs = r :: (rs ++ p :: qs) from rfl,
          show (r :: rs) ++ [p] = r :: (rs ++ [p]) from rfl,
          collectPosts_cons_true, collectPosts_cons_true]
      by_cases hlt : acc.length < 30
      · rw [if_pos hlt, if_pos hlt, ih]
      · rw [if_neg hlt, if_neg hlt]

theorem fetchRaw_45_pages (posts : List Post) (h45 : posts.length = 45) :
    fetchRaw [⟨posts.take 25, true⟩, ⟨posts.drop 25, false⟩] = posts := by
  have h1 : (posts.take 25).length = 25 := by
    rw [List.length_take, h45]
    rfl
  have h2 : (([] : List Post) ++ posts.take 25).length < 30 := by
    rw [List.nil_append, h1]
    omega
  show collectPosts _ [] true = posts
  rw [collectPosts_cons_true, if_pos (by simp)]
  rw [collectPosts_cons_true, if_pos h2, collectPosts_false]
  simp

/-! ## Claims -/

/-- C1, corrected. As stated the claim is false: `set` deduplicates the raw
comma chunks before they are stripped, so two chunks that differ only in
surrounding whitespace survive deduplication and strip to equal tokens (see
the counterexample with name = tagline = "a"). What holds: every token of
the keyword string is non-empty and whitespace-trimmed (stripping it again
changes nothing), and the join is taken over a duplicate-free list of raw
chunks, each stripped. -/
theorem keyword_tokens_trimmed_nonempty (name tagline t : String)
    (ht : t ∈ keywordTokens name tagline) :
    t ≠ "" ∧ pyStrip t = t ∧
      ∃ segs : List String, segs.Nodup ∧
        keywordTokens name tagline = (segs.map pyStrip).filter fun w => w != "" := by
  unfold keywordTokens at ht
  refine ⟨?_, ?_, dedupKeepFirst (keywordSegments name tagline), dedupKeepFirst_nodup _, rfl⟩
  · have hp := List.of_mem_filter ht
    simpa using hp
  · have hm := List.mem_of_mem_filter ht
    obtain ⟨w, _, rfl⟩ := List.mem_map.mp hm
    exact pyStrip_idem w

/-- Witness for C1's theorem at name = "Venice", tagline =
"Private & censorship-resistant AI", token "Venice". -/
theorem keyword_tokens_trimmed_nonempty_witness :
    "Venice" ≠ "" ∧ pyStrip "Venice" = "Venice" ∧
      ∃ segs : List String, segs.Nodup ∧
        keywordTokens "Venice" "Private & censorship-resistant AI"
          = (segs.map pyStrip).filter fun w => w != "" :=
  keyword_tokens_trimmed_nonempty "Venice" "Private & censorship-resistant AI" "Venice"
    (by decide)

/-- C1's counterexample: with name = "a" and tagline = "a" the combined
string "a, a" splits into the chunks "a" and " a", both survive the set,
and both strip to "a": the keyword string "a, a" joins two equal tokens. -/
theorem keyword_tokens_duplicate_cex :
    ¬ (keywordTokens "a" "a").Nodup ∧ generate_keywords "a" "a" = "a, a" :=
  ⟨by decide, by decide⟩

/-- C2, corrected. The separator normalization also rewrites the hyphen of
"censorship-resistant" to a comma, so that phrase splits into "censorship"
and "resistant AI"; the claimed token "censorship-resistant AI" never
appears. What holds (for the spec's exact tagline and for the mock record's
full tagline): the token multiset is "Venice", "Private", "censorship",
"resistant AI" (plus "Unlock unlimited intelligence" for the full tagline),
with "Venice" appearing exactly once. `List.Perm` states the multiset,
since Python's set iteration order is unspecified. -/
theorem venice_keyword_tokens :
    (keywordTokens "Venice" "Private & censorship-resistant AI").Perm
        ["Venice", "Private", "censorship", "resistant AI"] ∧
    (keywordTokens "Venice" "Private & censorship-resistant AI").count "Venice" = 1 ∧
    (keywordTokens "Venice"
        "Private & censorship-resistant AI | Unlock unlimited intelligence").Perm
        ["Venice", "Private", "censorship", "resistant AI",
         "Unlock unlimited intelligence"] ∧
    (keywordTokens "Venice"
        "Private & censorship-resistant AI | Unlock unlimited intelligence").count
        "Venice" = 1 :=
  ⟨by decide, by decide, by decide, by decide⟩

/-- C2's counterexample: the token "censorship-resistant AI" is in the
keyword set neither for the spec's tagline nor for the mock record's full
tagline — the hyphen is normalized to a comma first. -/
theorem venice_keyword_cex :
    "censorship-resistant AI" ∉
        keywordTokens "Venice" "Private & censorship-resistant AI" ∧
    "censorship-resistant AI" ∉
        keywordTokens "Venice"
          "Private & censorship-resistant AI | Unlock unlimited intelligence" :=
  ⟨by decide, by decide⟩

/-- C3, code bug. Parts (a) and (c) hold, but the `twitter:image` fallback
of part (b) never does: on a 200 page without `og:image` the code calls
`soup.find("meta", name="twitter:image")`, which raises `TypeError`
(BeautifulSoup's `find` already calls its first parameter `name`; the
code's own comment says it means to look the tag up), the `except` swallows
it, and the empty string is returned even though a `twitter:image` tag with
content is present. -/
theorem fetch_og_image_twitter_dropped :
    fetch_og_image_url (Except.ok
      { statusCode := 200, ogImage := none,
        twitterImage := some "https://example.com/preview.png" }) = "" := rfl

/-- C4, corrected. What holds of `fetch_product_hunt_data`: (1) it never
returns more than 30 records; (2) once at least 30 records are accumulated
no further page is consumed; (3) no page after a `hasNextPage = false` page
is consumed; (4) for 45 matching records paged 25 + 20 whose arrival order
is already descending by votes (as the API's `order: VOTES` provides), the
result is exactly the first 30 records in page order, still sorted
descending. The claim's unconditional "first 30 by page order" is false:
the code sorts all accumulated records by votes before truncating, so when
arrival order is not vote-descending the last 15 records can displace
earlier ones (see the counterexample). -/
theorem fetch_pagination_props :
    (∀ pages, (fetch_product_hunt_posts pages).length ≤ 30) ∧
    (∀ (ps qs : List Page) (acc : List Post) (b : Bool),
        30 ≤ (collectPosts ps acc b).length →
        collectPosts (ps ++ qs) acc b = collectPosts ps acc b) ∧
    (∀ (ps : List Page) (p : Page) (qs : List Page) (acc : List Post) (b : Bool),
        p.hasNextPage = false →
        collectPosts (ps ++ p :: qs) acc b = collectPosts (ps ++ [p]) acc b) ∧
    (∀ posts : List Post, posts.length = 45 →
        sortedDescBy (fun p => p.votesCount) posts = true →
        fetch_product_hunt_posts [⟨posts.take 25, true⟩, ⟨posts.drop 25, false⟩]
            = posts.take 30 ∧
        sortedDescBy (fun p => p.votesCount) (posts.take 30) = true) := by
  refine ⟨?_, ?_, ?_, ?_⟩
  · intro pages
    exact List.length_take_le 30 _
  · intro ps qs acc b h
    exact collectPosts_append_of_ge ps qs acc b h
  · intro ps p qs acc b hp
    exact collectPosts_stop_last ps p hp qs acc b
  · intro posts h45 hs
    constructor
    · unfold fetch_product_hunt_posts
      rw [fetchRaw_45_pages posts h45, sortedDescBy_eq_self _ _ hs]
    · exact sortedDescBy_take _ 30 posts hs

/-- Witness for C4's theorem: part (4) at 45 concrete records with votes
45, 44, ..., 1 in arrival order. -/
theorem fetch_pagination_props_witness :
    fetch_product_hunt_posts
        [⟨descendingPosts45.take 25, true⟩, ⟨descendingPosts45.drop 25, false⟩]
      = descendingPosts45.take 30 :=
  (fetch_pagination_props.2.2.2 descendingPosts45 (by decide) (by decide)).1

/-- C4's counterexample: 45 records paged 25 + 20 whose votes ascend 1..45
in page order. The code returns the 30 highest-voted of all 45 (its first
element has 45 votes), not the first 30 by page order sorted descending
(whose first element has 30 votes). -/
theorem fetch_pagination_cex :
    fetch_product_hunt_posts ascendingPages
        ≠ sortDescBy (fun p => p.votesCount)
            (((ascendingPages.map Page.nodes).flatten).take 30) ∧
    ((fetch_product_hunt_posts ascendingPages).map fun p => p.votesCount).head?
        = some 45 ∧
    ((sortDescBy (fun p => p.votesCount)
        (((ascendingPages.map Page.nodes).flatten).take 30)).map
          fun p => p.votesCount).head? = some 30 :=
  ⟨by decide, by decide, by decide⟩

/-- C5, confirmed. When the fetch raises, `main` publishes exactly the 3
mock products (their names and vote counts fixed by `fetch_mock_data`),
whatever the raised message and whatever the network does during mock
construction; the webhook document reports product count 3. The match in
`main_products` is total, so the original exception never escapes. -/
theorem main_fallback_to_mock (msg : String) (oracle : String → FetchResult)
    (d : String) :
    (main_products (Except.error msg) oracle).map List.length = some 3 ∧
    (main_products (Except.error msg) oracle).map (List.map Product.name)
        = some ["Venice", "Mistral OCR", "AI Code Reviewer"] ∧
    (main_products (Except.error msg) oracle).map (List.map Product.votes_count)
        = some [566, 477, 324] ∧
    (main_run (Except.error msg) oracle d).map WebhookData.product_count = some 3 :=
  ⟨rfl, rfl, rfl, rfl⟩

/-- C6, confirmed. For a non-empty, vote-descending product list the
webhook statistics are: total = sum of the votes of the first
min(10, n) products; average = total / min(10, n) (floor); max = the first
product's votes; min = the votes at index min(9, n − 1). -/
theorem send_to_webhook_stats (d : String) (products : List Product)
    (hsorted : sortedDescBy (fun p => p.votes_count) products = true)
    (hne : products ≠ []) :
    (build_webhook_data d products).total_votes
        = ((products.take (min 10 products.length)).map fun p => p.votes_count).sum ∧
    (build_webhook_data d products).avg_votes
        = ((products.take (min 10 products.length)).map fun p => p.votes_count).sum
            / min 10 products.length ∧
    (build_webhook_data d products).max_votes = (products.head hne).votes_count ∧
    (build_webhook_data d products).min_votes
        = (products.getD (min 9 (products.length - 1)) dummyProduct).votes_count := by
  match products with
  | p :: ps =>
    rw [take_min_length]
    refine ⟨rfl, ?_, rfl, ?_⟩
    · show ((p :: ps).take 10 |>.map fun p => p.votes_count).sum
            / ((p :: ps).take 10).length = _
      rw [List.length_take]
    · show ((p :: ps).getD (min 9 ps.length) p).votes_count = _
      have hlen : (p :: ps).length - 1 = ps.length := rfl
      rw [hlen]
      exact congrArg Product.votes_count
        (getD_of_lt _ _ p dummyProduct (by simp))

/-- Witness for C6's theorem: ten products with votes 100, 90, ..., 10 give
total 550, average 55, max 100, min 10. -/
theorem send_to_webhook_stats_witness :
    (build_webhook_data "2025-01-01" tenProducts).total_votes = 550 ∧
    (build_webhook_data "2025-01-01" tenProducts).avg_votes = 55 ∧
    (build_webhook_data "2025-01-01" tenProducts).max_votes = 100 ∧
    (build_webhook_data "2025-01-01" tenProducts).min_votes = 10 := by
  obtain ⟨h1, h2, h3, h4⟩ :=
    send_to_webhook_stats "2025-01-01" tenProducts (by decide) (by decide)
  exact ⟨h1.trans (by decide), h2.trans (by decide),
         h3.trans (by decide), h4.trans (by decide)⟩

/-- C7, confirmed. "2025-03-07T16:01:00Z" parses to 2025-03-07 16:01:00
UTC, shifts to 2025-03-08 00:01:00 in UTC+8, and renders with the date, the
AM marker ("AM12:01" is 00:01 in 12-hour form) and the 北京时间 zone
label. -/
theorem convert_beijing_example :
    parse_strptime "2025-03-07T16:01:00Z" = some ⟨2025, 3, 7, 16, 1, 0⟩ ∧
    shiftToBeijing ⟨2025, 3, 7, 16, 1, 0⟩ = some ⟨2025, 3, 8, 0, 1, 0⟩ ∧
    convert_to_beijing_time "2025-03-07T16:01:00Z"
        = some "2025年03月08日 AM12:01 (北京时间)" :=
  ⟨by decide, by decide, by decide⟩

/-- C8, corrected. The propagation half of the claim holds: whenever
`strptime` rejects `createdAt`, `convert_to_beijing_time` raises and
`Product.__init__` has no handler, so the record is not produced. But
"every string not matching the strict format YYYY-MM-DDThh:mm:ssZ" is too
wide: `strptime`'s actual format also accepts one-digit month, day, hour,
minute and second fields and lowercase `t`/`z`, so such strings convert and
the record is produced (see the counterexample). -/
theorem strptime_failure_aborts (oracle : String → FetchResult) (p : RawPost)
    (h : parse_strptime p.createdAt = none) :
    Product.init oracle p = none := by
  unfold Product.init convert_to_beijing_time
  rw [h]
  rfl

/-- Witness for C8's theorem: an unparsable `createdAt` aborts construction
of the record. -/
theorem strptime_failure_aborts_witness :
    Product.init (fun _ => Except.error "network down")
      { name := "Venice", tagline := "", description := "", votesCount := 0,
        createdAt := "not a timestamp", featuredAt := none, website := "",
        url := "", media := [] } = none :=
  strptime_failure_aborts _ _ (by decide)

/-- C8's counterexample: "2025-3-07T16:01:00Z" does not match the strict
format (one-digit month), yet `strptime` accepts it, the conversion
succeeds, and the record is produced. -/
theorem strict_format_cex :
    strictFormatOK "2025-3-07T16:01:00Z" = false ∧
    convert_to_beijing_time "2025-3-07T16:01:00Z" ≠ none ∧
    Product.init (fun _ => Except.error "network down")
      { name := "X", tagline := "", description := "", votesCount := 0,
        createdAt := "2025-3-07T16:01:00Z", featuredAt := none, website := "",
        url := "", media := [] } ≠ none :=
  ⟨rfl, by decide, by decide⟩

/-- C9, corrected. The degradation half holds: whenever `createdAt`
converts, construction succeeds with every other field empty/zero,
degraded rather than fatal. But `__init__` validates nothing about `name`:
it is stored verbatim, so a Product with an empty name constructs fine (see
the counterexample) — the non-empty-name invariant is an assumption about
the API, not something construction enforces. -/
theorem product_accepts_degraded_fields (oracle : String → FetchResult)
    (p : RawPost) (h : convert_to_beijing_time p.createdAt ≠ none) :
    Product.init oracle p ≠ none ∧
    (Product.init oracle p).map Product.name = some p.name ∧
    (Product.init oracle p).map Product.votes_count = some p.votesCount := by
  obtain ⟨c, hc⟩ := Option.ne_none_iff_exists'.mp h
  unfold Product.init
  rw [hc]
  exact ⟨by simp, rfl, rfl⟩

/-- Witness for C9's theorem: the all-empty record (empty name included)
with a valid timestamp constructs. -/
theorem product_accepts_degraded_fields_witness :
    Product.init (fun _ => Except.error "network down")
        { name := "", tagline := "", description := "", votesCount := 0,
          createdAt := "2025-03-07T14:30:00Z", featuredAt := none, website := "",
          url := "", media := [] } ≠ none ∧
    (Product.init (fun _ => Except.error "network down")
        { name := "", tagline := "", description := "", votesCount := 0,
          createdAt := "2025-03-07T14:30:00Z", featuredAt := none, website := "",
          url := "", media := [] }).map Product.name = some "" ∧
    (Product.init (fun _ => Except.error "network down")
        { name := "", tagline := "", description := "", votesCount := 0,
          createdAt := "2025-03-07T14:30:00Z", featuredAt := none, website := "",
          url := "", media := [] }).map Product.votes_count = some 0 :=
  product_accepts_degraded_fields _ _ (by decide)

/-- C9's counterexample: a record with an empty name and a valid timestamp
constructs successfully — "every successfully constructed Product has a
non-empty name" is false of the code. -/
theorem empty_name_constructs_cex :
    (Product.init (fun _ => Except.error "network down")
      { name := "", tagline := "t", description := "", votesCount := 5,
        createdAt := "2025-03-07T16:01:00Z", featuredAt := none, website := "",
        url := "", media := [{ url := some "https://img.example/x.png" }] }).map
      Product.name = some "" := by decide

/-- C10, confirmed. On the empty product list every guarded expression
takes its `else 0` branch: the document is built without any indexing or
division (the model, like the code, never reaches `products[0]`,
`products[-1]` or a zero division) and reports count 0 and all four
statistics 0. -/
theorem webhook_empty_list_total (d : String) :
    build_webhook_data d [] =
      { date := d, source := "Product Hunt API", product_count := 0,
        total_votes := 0, avg_votes := 0, max_votes := 0, min_votes := 0,
        items := [] } := rfl

end ProductHunt
